import Mathlib

/-!
# basic-watchface: a shallow embedding of `src/c/main.c`

The watchface is single-threaded callback code over the Pebble platform.  The
embedding keeps the globals of the program (the settings record and the six text
buffers) in an explicit `State`, together with the two pieces of the platform
the callbacks act on: the persistent key/value store and the chronological list
of platform calls that have an outside effect (outbox sends, vibrations,
redraw requests, health subscriptions).

Platform primitives are modelled after their documented contracts:

* `snprintf (buf, size, ...)` stores at most `size - 1` characters;
* `persist_read_data (key, buf, size)` leaves `buf` untouched when nothing is
  stored under `key`, and otherwise copies `min (stored length) size` bytes to
  the start of `buf`;
* `persist_write_data (key, buf, size)` replaces the blob stored under `key`;
* `dict_find` yields a possibly-NULL tuple, modelled by `Option`;
* `atoi` reads white space, a sign and decimal digits; C defines its result only when
  an `int` can hold the number read, and the model says nothing beyond that.

`ClaySettings` is laid out as on the 32-bit ARM target: four one-byte `bool`s
followed by a little-endian 32-bit `int`, eight bytes in all.
-/

namespace Watchface

/-! ## Data model -/

/-- The characters of a C string before its terminating NUL, one list element per byte. -/
abbrev CString := List Char

/-- Storage key of the settings record (line 3). -/
def SETTINGS_KEY : Nat := 0

/-- Storage key of the settings version (line 4). -/
def SETTINGS_VERSION_KEY : Nat := 1

/-- Smallest value of a 32-bit `int`. -/
def INT_MIN : Int := -2147483648

/-- Largest value of a 32-bit `int`. -/
def INT_MAX : Int := 2147483647

/-- The settings record of lines 11-17. -/
structure ClaySettings where
  vibrate_on_disconnect : Bool
  hourly_vibration : Bool
  health_enabled : Bool
  weather_enabled : Bool
  weather_unit : Int
deriving DecidableEq, Repr

/-- Calls into the platform that have an effect outside the memory of the program. -/
inductive Effect where
  | app_message_outbox_send (dict : List (Nat × Nat))
  | vibes_short_pulse
  | vibes_long_pulse
  | layer_mark_dirty
  | health_service_events_subscribe
deriving DecidableEq, Repr

/-- The persistent store: the blob kept under each key, as bytes. -/
abbrev Persist := List (Nat × List Nat)

/-- The globals of `main.c`, the persistent store and the log of platform calls. -/
structure State where
  settings : ClaySettings
  s_time_text : CString
  s_battery_text : CString
  s_steps_text : CString
  s_temperature_buffer : CString
  s_conditions_buffer : CString
  s_weather_text : CString
  persist : Persist
  effects : List Effect
deriving DecidableEq, Repr

/-- The fields of `struct tm` that `update_time` reads. -/
structure tm where
  tm_hour : Nat
  tm_min : Nat
deriving DecidableEq, Repr

/-- An inbound dictionary: for every message key what `dict_find` returns (`none` is NULL),
each value in the form the callback reads it (`int32` or `cstring`). -/
structure DictionaryIterator where
  temperature : Option Int
  conditions : Option CString
  disconnectEnabled : Option Int
  hourlyVibrationEnabled : Option Int
  healthEnabled : Option Int
  weatherEnabled : Option Int
  temperatureUnit : Option CString
deriving DecidableEq, Repr

/-- How a callback ends: it returns, or it dereferences a NULL tuple, or it calls `atoi` on
a string whose value no `int` can hold, where C leaves the behaviour undefined; in each case
the state is the one reached at that point. -/
inductive Outcome where
  | returned (st : State)
  | null_dereference (st : State)
  | atoi_out_of_range (st : State)
deriving DecidableEq, Repr

/-! ## Platform primitives -/

/-- The text `printf` produces for `%d`. -/
def fmt_d (v : Int) : CString :=
  if v < 0 then '-' :: Nat.toDigits 10 v.natAbs else Nat.toDigits 10 v.natAbs

/-- What `snprintf` leaves in a buffer of `size` bytes: at most `size - 1` characters. -/
def snprintf (size : Nat) (text : CString) : CString :=
  text.take (size - 1)

/-- Two decimal digits, as `strftime` prints an hour or a minute. -/
def fmt_02 (n : Nat) : CString :=
  [Nat.digitChar (n / 10 % 10), Nat.digitChar (n % 10)]

/-- The text of `strftime` for the formats `%H:%M` (24-hour) and `%I:%M` (12-hour). -/
def strftime (size : Nat) (clock_is_24h_style : Bool) (tick_time : tm) : CString :=
  let hour :=
    if clock_is_24h_style then tick_time.tm_hour
    else if tick_time.tm_hour % 12 = 0 then 12 else tick_time.tm_hour % 12
  (fmt_02 hour ++ [':'] ++ fmt_02 tick_time.tm_min).take (size - 1)

/-- One byte for a `bool`. -/
def bool_byte (b : Bool) : Nat := if b then 1 else 0

/-- A 32-bit value read as a signed (two-complement) `int`. -/
def wrap_int (v : Int) : Int :=
  if v % 4294967296 < 2147483648 then v % 4294967296 else v % 4294967296 - 4294967296

/-- The four little-endian bytes of an `int`. -/
def int_bytes (v : Int) : List Nat :=
  let u := (v % 4294967296).toNat
  [u % 256, u / 256 % 256, u / 65536 % 256, u / 16777216 % 256]

/-- The `int` held in four little-endian bytes. -/
def bytes_int (b0 b1 b2 b3 : Nat) : Int :=
  wrap_int ((b0 % 256 + 256 * (b1 % 256) + 65536 * (b2 % 256) + 16777216 * (b3 % 256) : Nat) : Int)

/-- Size in bytes of `ClaySettings`. -/
def sizeof_settings : Nat := 8

/-- The memory image of a settings record. -/
def settings_bytes (s : ClaySettings) : List Nat :=
  [bool_byte s.vibrate_on_disconnect, bool_byte s.hourly_vibration,
   bool_byte s.health_enabled, bool_byte s.weather_enabled] ++ int_bytes s.weather_unit

/-- The settings record held by a memory image. -/
def bytes_settings (bs : List Nat) : ClaySettings :=
  { vibrate_on_disconnect := bs.getD 0 0 != 0
    hourly_vibration := bs.getD 1 0 != 0
    health_enabled := bs.getD 2 0 != 0
    weather_enabled := bs.getD 3 0 != 0
    weather_unit := bytes_int (bs.getD 4 0) (bs.getD 5 0) (bs.getD 6 0) (bs.getD 7 0) }

/-- The blob stored under a key, if any. -/
def persist_lookup (p : Persist) (key : Nat) : Option (List Nat) :=
  (p.find? (fun e => e.1 == key)).map (fun e => e.2)

/-- The buffer after `persist_read_data`: unchanged when the key is unset, otherwise its
first `min (stored length) buffer_size` bytes are replaced by the stored ones. -/
def persist_read_data (p : Persist) (key : Nat) (buffer : List Nat) (buffer_size : Nat) :
    List Nat :=
  match persist_lookup p key with
  | none => buffer
  | some blob => blob.take (min blob.length buffer_size) ++ buffer.drop (min blob.length buffer_size)

/-- The store after `persist_write_data`. -/
def persist_write_data (p : Persist) (key : Nat) (data : List Nat) : Persist :=
  (key, data) :: p.filter (fun e => e.1 != key)

/-- The store after `persist_write_int`. -/
def persist_write_int (p : Persist) (key : Nat) (value : Int) : Persist :=
  persist_write_data p key (int_bytes value)

/-- The `isspace` of the C library, in the C locale. -/
def isspace (c : Char) : Bool :=
  c.toNat == 32 || (9 ≤ c.toNat && c.toNat ≤ 13)

/-- The value of the leading decimal digits of a string, continuing from `acc`. -/
def atoi_digits : Int → CString → Int
  | acc, [] => acc
  | acc, c :: cs =>
    if 48 ≤ c.toNat ∧ c.toNat ≤ 57 then atoi_digits (acc * 10 + ((c.toNat - 48 : Nat) : Int)) cs
    else acc

/-- The number `atoi` reads: leading white space, an optional sign, then decimal digits. -/
def atoi_value (s : CString) : Int :=
  match s.dropWhile isspace with
  | '-' :: rest => -(atoi_digits 0 rest)
  | '+' :: rest => atoi_digits 0 rest
  | rest => atoi_digits 0 rest

/-- The `atoi` of the C library.  The result is the number read when an `int` can hold it;
otherwise C leaves the behaviour undefined (libraries differ: some saturate, some cut the
value down) and the model gives `none`. -/
def atoi (s : CString) : Option Int :=
  if INT_MIN ≤ atoi_value s ∧ atoi_value s ≤ INT_MAX then some (atoi_value s) else none

/-- Append a platform call to the log. -/
def emit (e : Effect) (st : State) : State :=
  { st with effects := st.effects ++ [e] }

/-! ## The program -/

/-- The outbound dictionary of a weather request: key 0 with value 0 (line 41). -/
def weather_request : Effect := Effect.app_message_outbox_send [(0, 0)]

/-- Memory at program start: zeroed globals except the two initialised buffers (line 8). -/
def boot (p : Persist) : State :=
  { settings :=
      { vibrate_on_disconnect := false, hourly_vibration := false, health_enabled := false,
        weather_enabled := false, weather_unit := 0 }
    s_time_text := ['0', '0', ':', '0', '0']
    s_battery_text := ['1', '0', '0', '%']
    s_steps_text := []
    s_temperature_buffer := []
    s_conditions_buffer := []
    s_weather_text := []
    persist := p
    effects := [] }

/-- The defaults assigned at lines 24-28. -/
def default_settings : ClaySettings :=
  { vibrate_on_disconnect := true, hourly_vibration := false, health_enabled := true,
    weather_enabled := true, weather_unit := 0 }

/-- Lines 23-30: assign the defaults, then read the stored blob over the record. -/
def settings_init (st : State) : State :=
  { st with
    settings :=
      bytes_settings
        (persist_read_data st.persist SETTINGS_KEY (settings_bytes default_settings)
          sizeof_settings) }

/-- Lines 32-35: write the record and the version tag. -/
def save_settings (st : State) : State :=
  { st with
    persist :=
      persist_write_int
        (persist_write_data st.persist SETTINGS_KEY
          ((settings_bytes st.settings).take sizeof_settings))
        SETTINGS_VERSION_KEY 1 }

/-- Lines 37-44: send the one-entry request dictionary. -/
def request_weather (st : State) : State :=
  emit weather_request st

/-- Lines 79-94, with the current local time and the clock style as inputs. -/
def update_time (tick_time : tm) (clock_is_24h_style : Bool) (st : State) : State :=
  let st1 := { st with s_time_text := strftime 6 clock_is_24h_style tick_time }
  let st2 := if tick_time.tm_min % 30 = 0 then request_weather st1 else st1
  if tick_time.tm_min = 0 then
    if st2.settings.hourly_vibration then emit Effect.vibes_short_pulse st2 else st2
  else st2

/-- Lines 98-102. -/
def tick_handler (tick_time : tm) (clock_is_24h_style : Bool) (st : State) : State :=
  emit Effect.layer_mark_dirty (update_time tick_time clock_is_24h_style st)

/-- Lines 105-112, with the charge percentage as input. -/
def battery_handler (charge_percent : Int) (st : State) : State :=
  emit Effect.layer_mark_dirty
    { st with s_battery_text := snprintf 5 (fmt_d charge_percent ++ ['%']) }

/-- Lines 115-124, with the step sum of the day as input; `/` and `%` of C truncate. -/
def update_step_count (value : Int) (st : State) : State :=
  if value ≥ 1000 then
    let thousands := value.tdiv 1000
    let hundreds := (value.tmod 1000).tdiv 100
    { st with s_steps_text := snprintf 6 (fmt_d thousands ++ ['.'] ++ fmt_d hundreds ++ ['k']) }
  else
    { st with s_steps_text := snprintf 6 (fmt_d value) }

/-- Lines 132-136. -/
def bluetooth_callback (connected : Bool) (st : State) : State :=
  if !connected then emit Effect.vibes_long_pulse st else st

/-- Lines 180-204: the settings branch, entered with a non-NULL disconnect tuple.  The other
four tuples are dereferenced in source order without a NULL test, and the unit string goes
to `atoi` unchecked. -/
def apply_settings (PBL_HEALTH : Bool) (iterator : DictionaryIterator) (d : Int) (st : State) :
    Outcome :=
  let st1 := { st with settings := { st.settings with vibrate_on_disconnect := decide (d = 1) } }
  match iterator.hourlyVibrationEnabled with
  | none => Outcome.null_dereference st1
  | some h =>
    let st2 := { st1 with settings := { st1.settings with hourly_vibration := decide (h = 1) } }
    match iterator.healthEnabled with
    | none => Outcome.null_dereference st2
    | some he =>
      let st3 := { st2 with settings := { st2.settings with health_enabled := decide (he = 1) } }
      match iterator.weatherEnabled with
      | none => Outcome.null_dereference st3
      | some w =>
        let st4 :=
          { st3 with settings := { st3.settings with weather_enabled := decide (w = 1) } }
        match iterator.temperatureUnit with
        | none => Outcome.null_dereference st4
        | some u =>
          match atoi u with
          | none => Outcome.atoi_out_of_range st4
          | some unit =>
            let st5 := { st4 with settings := { st4.settings with weather_unit := unit } }
            let st6 := save_settings st5
            let st7 := if st6.settings.weather_enabled then request_weather st6 else st6
            let st8 :=
              if PBL_HEALTH && st7.settings.health_enabled then
                emit Effect.health_service_events_subscribe st7
              else st7
            Outcome.returned (emit Effect.layer_mark_dirty st8)

/-- Lines 165-205.  `PBL_HEALTH` says whether the build defines that symbol; the debug line
of `APP_LOG` changes nothing the program can observe and is left out. -/
def inbox_received_callback (PBL_HEALTH : Bool) (iterator : DictionaryIterator) (st : State) :
    Outcome :=
  match iterator.temperature, iterator.conditions with
  | some t, some c =>
    let tbuf :=
      if st.settings.weather_unit = 1 then snprintf 8 (fmt_d t ++ ['F'])
      else snprintf 8 (fmt_d t ++ ['C'])
    let cbuf := snprintf 32 c
    Outcome.returned
      (emit Effect.layer_mark_dirty
        { st with
          s_temperature_buffer := tbuf
          s_conditions_buffer := cbuf
          s_weather_text := snprintf 32 (tbuf ++ [':'] ++ cbuf) })
  | _, _ =>
    match iterator.disconnectEnabled with
    | some d => apply_settings PBL_HEALTH iterator d st
    | none => Outcome.returned st


/-- The platform calls made between two states of one run. -/
def calls_during (before after : State) : List Effect :=
  after.effects.drop before.effects.length

/-- The decimal text of a natural number. -/
def decimal (n : Nat) : CString := Nat.toDigits 10 n

/-- The steps text the specification describes for a step count n. -/
def steps_text_spec (n : Nat) : CString :=
  if n < 1000 then decimal n
  else decimal (n / 1000) ++ ['.'] ++ decimal (n % 1000 / 100) ++ ['k']

/-- The white-space characters of the C locale: space, tab, line feed, vertical tab, form
feed and carriage return. -/
def white_space : List Char :=
  [Char.ofNat 32, Char.ofNat 9, Char.ofNat 10, Char.ofNat 11, Char.ofNat 12, Char.ofNat 13]

/-- The number a string of decimal digits writes. -/
def digits_value (ds : CString) : Nat :=
  ds.foldl (fun a c => 10 * a + (c.toNat - '0'.toNat)) 0

/-- The integer parsed from a string, as the specification means it: after any leading white
space and an optional sign, the number written by the longest run of decimal digits (0 when
there is none), negated after a minus sign. -/
def parsed_integer (s : CString) : Int :=
  match s.dropWhile (fun c => decide (c ∈ white_space)) with
  | '-' :: rest => -((digits_value (rest.takeWhile Char.isDigit) : Nat) : Int)
  | '+' :: rest => ((digits_value (rest.takeWhile Char.isDigit) : Nat) : Int)
  | rest => ((digits_value (rest.takeWhile Char.isDigit) : Nat) : Int)

/-! ## Helper lemmas -/

theorem calls_during_update_time (tick_time : tm) (is24 : Bool) (st : State) :
    calls_during st (update_time tick_time is24 st) =
      (if tick_time.tm_min % 30 = 0 then [weather_request] else []) ++
      (if tick_time.tm_min = 0 ∧ st.settings.hourly_vibration = true then
        [Effect.vibes_short_pulse] else []) := by
  unfold calls_during update_time request_weather
  by_cases h30 : tick_time.tm_min % 30 = 0 <;> by_cases h0 : tick_time.tm_min = 0 <;>
    cases hv : st.settings.hourly_vibration <;>
    simp [h30, h0, hv, emit]

theorem fmt_d_natCast (n : Nat) : fmt_d (n : Int) = decimal n := by
  simp [fmt_d, decimal]

theorem decimal_length_le (n e : Nat) (he : 0 < e) (hn : n < 10 ^ e) :
    (decimal n).length ≤ e := by
  have h := Nat.repr_length n e he hn
  simpa [Nat.repr, decimal] using h

/-! ## Update policy -/

/-- C1: on every tick, whatever the minute m (0..59 in particular) and whatever the settings
(weather_enabled included), update_time sends exactly one weather request when m mod 30 = 0
and none when m mod 30 is not 0. -/
theorem update_time_weather_request (tick_time : tm) (clock_is_24h_style : Bool) (st : State) :
    (calls_during st (update_time tick_time clock_is_24h_style st)).count weather_request =
      if tick_time.tm_min % 30 = 0 then 1 else 0 := by
  rw [calls_during_update_time]
  by_cases h : tick_time.tm_min % 30 = 0 <;> by_cases h0 : tick_time.tm_min = 0 <;>
    cases hv : st.settings.hourly_vibration <;> simp [h, h0, hv, weather_request]

/-- C2: on every tick, whatever the minute m (0..59 in particular), update_time triggers one
short pulse when m = 0 and hourly_vibration is set, and none otherwise; so a short pulse is
triggered if and only if m = 0 and hourly_vibration is true. -/
theorem update_time_short_pulse (tick_time : tm) (clock_is_24h_style : Bool) (st : State) :
    ((calls_during st (update_time tick_time clock_is_24h_style st)).count
        Effect.vibes_short_pulse =
      if tick_time.tm_min = 0 ∧ st.settings.hourly_vibration = true then 1 else 0) ∧
    (Effect.vibes_short_pulse ∈ calls_during st (update_time tick_time clock_is_24h_style st) ↔
      tick_time.tm_min = 0 ∧ st.settings.hourly_vibration = true) := by
  rw [calls_during_update_time]
  by_cases h : tick_time.tm_min % 30 = 0 <;> by_cases h0 : tick_time.tm_min = 0 <;>
    cases hv : st.settings.hourly_vibration <;> simp [h, h0, hv, weather_request]

/-! ## Connectivity -/

/-- C10: bluetooth_callback triggers a long pulse if and only if connected is false, and the
calls it makes are the same for every settings record: a disconnect vibrates even when
vibrate_on_disconnect is false. -/
theorem bluetooth_callback_long_pulse (connected : Bool) (st : State) :
    (calls_during st (bluetooth_callback connected st) =
      if connected then [] else [Effect.vibes_long_pulse]) ∧
    (Effect.vibes_long_pulse ∈ calls_during st (bluetooth_callback connected st) ↔
      connected = false) ∧
    (∀ s : ClaySettings,
      calls_during { st with settings := s } (bluetooth_callback connected { st with settings := s })
        = calls_during st (bluetooth_callback connected st)) ∧
    calls_during { st with settings := { st.settings with vibrate_on_disconnect := false } }
        (bluetooth_callback false
          { st with settings := { st.settings with vibrate_on_disconnect := false } })
      = [Effect.vibes_long_pulse] := by
  cases connected <;> simp [calls_during, bluetooth_callback, emit]

/-! ## Display formatting -/

/-- C3: for a payload carrying temperature t and conditions c, when the decimal text of t with
its unit letter has at most 7 characters and the whole text at most 31, the callback returns
and the weather text is decimal(t), then F if weather_unit = 1 and C otherwise, then a colon,
then c. -/
theorem inbox_weather_text (PBL_HEALTH : Bool) (iterator : DictionaryIterator) (st : State)
    (t : Int) (c : CString)
    (ht : iterator.temperature = some t) (hc : iterator.conditions = some c)
    (h7 : (fmt_d t).length + 1 ≤ 7)
    (h31 : (fmt_d t).length + 1 + 1 + c.length ≤ 31) :
    ∃ st1, inbox_received_callback PBL_HEALTH iterator st = Outcome.returned st1 ∧
      st1.s_weather_text =
        fmt_d t ++ [if st.settings.weather_unit = 1 then 'F' else 'C'] ++ [':'] ++ c := by
  refine ⟨_, by simp only [inbox_received_callback, ht, hc]; rfl, ?_⟩
  have hc32 : c.take 31 = c := List.take_of_length_le (by omega)
  by_cases hu : st.settings.weather_unit = 1
  · have h8 : (fmt_d t ++ ['F']).take 7 = fmt_d t ++ ['F'] :=
      List.take_of_length_le (by simp; omega)
    simp only [emit, snprintf, hu, if_true]
    norm_num only [h8, hc32]
    exact List.take_of_length_le (by simp; omega)
  · have h8 : (fmt_d t ++ ['C']).take 7 = fmt_d t ++ ['C'] :=
      List.take_of_length_le (by simp; omega)
    simp only [emit, snprintf, hu, if_false]
    norm_num only [h8, hc32]
    exact List.take_of_length_le (by simp; omega)


/-- C3, the first example of the specification: temperature 21, conditions Cloudy and unit
Celsius give the weather text 21C:Cloudy. -/
theorem inbox_weather_text_witness :
    ∃ st1,
      inbox_received_callback true
          { temperature := some 21, conditions := some "Cloudy".toList, disconnectEnabled := none,
            hourlyVibrationEnabled := none, healthEnabled := none, weatherEnabled := none,
            temperatureUnit := none }
          (settings_init (boot [])) = Outcome.returned st1 ∧
      st1.s_weather_text = "21C:Cloudy".toList :=
  inbox_weather_text true
    { temperature := some 21, conditions := some "Cloudy".toList, disconnectEnabled := none,
      hourlyVibrationEnabled := none, healthEnabled := none, weatherEnabled := none,
      temperatureUnit := none }
    (settings_init (boot [])) 21 "Cloudy".toList rfl rfl (by decide) (by decide)

/-- The second example of the specification: temperature 70, conditions Sunny and unit
Fahrenheit give the weather text 70F:Sunny. -/
theorem inbox_weather_text_fahrenheit :
    inbox_received_callback true
        { temperature := some 70, conditions := some "Sunny".toList, disconnectEnabled := none,
          hourlyVibrationEnabled := none, healthEnabled := none, weatherEnabled := none,
          temperatureUnit := none }
        { boot [] with settings := { default_settings with weather_unit := 1 } } =
      Outcome.returned
        (emit Effect.layer_mark_dirty
          { boot [] with
            settings := { default_settings with weather_unit := 1 }
            s_temperature_buffer := "70F".toList
            s_conditions_buffer := "Sunny".toList
            s_weather_text := "70F:Sunny".toList }) := by
  decide

theorem update_step_count_natCast (n : Nat) (st : State) :
    (update_step_count (n : Int) st).s_steps_text = (steps_text_spec n).take 5 := by
  unfold update_step_count steps_text_spec
  by_cases h : n < 1000
  · have h1 : ¬ ((n : Int) ≥ 1000) := by omega
    simp [h1, h, snprintf, fmt_d_natCast]
  · have h1 : (n : Int) ≥ 1000 := by omega
    have e1 : (n : Int).tdiv 1000 = ((n / 1000 : Nat) : Int) := by
      rw [Int.tdiv_eq_ediv (by omega) (by omega)]; simp
    have e2 : ((n : Int).tmod 1000).tdiv 100 = ((n % 1000 / 100 : Nat) : Int) := by
      rw [Int.tmod_eq_emod (by omega) (by omega), Int.tdiv_eq_ediv (by omega) (by omega)]; simp
    simp only [h1, h, if_true, if_false, e1, e2, fmt_d_natCast, snprintf]

/-- C4 (amended): for every step count n >= 0 the steps text is the first five characters of
the text the specification describes, and for n < 100000 it is that text in full: decimal n
below 1000, and decimal(n / 1000), a dot, decimal((n mod 1000) / 100) and k from 1000 on. -/
theorem update_step_count_text (n : Nat) (st : State) :
    (update_step_count (n : Int) st).s_steps_text = (steps_text_spec n).take 5 ∧
    (n < 100000 → (update_step_count (n : Int) st).s_steps_text = steps_text_spec n) := by
  refine ⟨update_step_count_natCast n st, fun hn => ?_⟩
  rw [update_step_count_natCast]
  apply List.take_of_length_le
  unfold steps_text_spec
  by_cases h : n < 1000
  · have := decimal_length_le n 3 (by decide) (by omega)
    simp only [h, if_true]; omega
  · have h1 := decimal_length_le (n / 1000) 2 (by decide) (by omega)
    have h2 := decimal_length_le (n % 1000 / 100) 1 (by decide) (by omega)
    simp only [h, if_false, List.length_append, List.length_singleton]; omega

/-- C4 at the two step counts of the specification and at the largest one that fits: 999 gives
999, 1234 gives 1.2k and 99999 gives 99.9k. -/
theorem update_step_count_text_witness :
    (999 < 100000 ∧ (update_step_count 999 (boot [])).s_steps_text = "999".toList) ∧
    (1234 < 100000 ∧ (update_step_count 1234 (boot [])).s_steps_text = "1.2k".toList) ∧
    (99999 < 100000 ∧ (update_step_count 99999 (boot [])).s_steps_text = "99.9k".toList) :=
  ⟨⟨by decide, (update_step_count_text 999 (boot [])).2 (by decide)⟩,
   ⟨by decide, (update_step_count_text 1234 (boot [])).2 (by decide)⟩,
   ⟨by decide, (update_step_count_text 99999 (boot [])).2 (by decide)⟩⟩

/-- C4 as stated fails at n = 100000: the text the claim gives is 100.0k, six characters,
and the six-byte buffer keeps 100.0 only. -/
theorem update_step_count_100000 :
    (update_step_count 100000 (boot [])).s_steps_text = "100.0".toList ∧
    (update_step_count 100000 (boot [])).s_steps_text ≠
      decimal (100000 / 1000) ++ ['.'] ++ decimal (100000 % 1000 / 100) ++ ['k'] := by
  decide


/-! ## Settings store -/

theorem bool_byte_ne_zero (b : Bool) : (bool_byte b != 0) = b := by
  cases b <;> rfl

theorem bytes_int_int_bytes (v : Int) (hlo : INT_MIN ≤ v) (hhi : v ≤ INT_MAX) :
    bytes_int ((v % 4294967296).toNat % 256) ((v % 4294967296).toNat / 256 % 256)
      ((v % 4294967296).toNat / 65536 % 256) ((v % 4294967296).toNat / 16777216 % 256) = v := by
  unfold INT_MIN at hlo
  unfold INT_MAX at hhi
  unfold bytes_int wrap_int
  split <;> omega

theorem bytes_settings_settings_bytes (s : ClaySettings)
    (hlo : INT_MIN ≤ s.weather_unit) (hhi : s.weather_unit ≤ INT_MAX) :
    bytes_settings (settings_bytes s) = s := by
  cases s with
  | mk a b c d u =>
    simp only [bytes_settings, settings_bytes, int_bytes, List.cons_append, List.nil_append,
      List.getD_cons_zero, List.getD_cons_succ, bool_byte_ne_zero]
    rw [bytes_int_int_bytes u hlo hhi]

theorem settings_bytes_length (s : ClaySettings) : (settings_bytes s).length = 8 := by
  simp [settings_bytes, int_bytes]

theorem persist_lookup_save_settings (st : State) :
    persist_lookup (save_settings st).persist SETTINGS_KEY = some (settings_bytes st.settings) := by
  have h : (settings_bytes st.settings).take 8 = settings_bytes st.settings :=
    List.take_of_length_le (by rw [settings_bytes_length])
  simp [persist_lookup, save_settings, persist_write_int, persist_write_data, SETTINGS_KEY,
    SETTINGS_VERSION_KEY, sizeof_settings, h]

theorem settings_init_of_lookup (st : State) (s : ClaySettings)
    (hlo : INT_MIN ≤ s.weather_unit) (hhi : s.weather_unit ≤ INT_MAX)
    (h : persist_lookup st.persist SETTINGS_KEY = some (settings_bytes s)) :
    (settings_init st).settings = s := by
  have hl := settings_bytes_length s
  have hd := settings_bytes_length default_settings
  have h1 : (settings_bytes s).take 8 = settings_bytes s := List.take_of_length_le (by omega)
  have h2 : (settings_bytes default_settings).drop 8 = [] := List.drop_of_length_le (by omega)
  simp only [settings_init, persist_read_data, h, sizeof_settings, hl, Nat.min_self, h1, h2,
    List.append_nil]
  exact bytes_settings_settings_bytes s hlo hhi

/-- C6: for every settings record s (its weather_unit a 32-bit int), save_settings followed by
settings_init in a freshly started program over the resulting store gives back s in all
five fields. -/
theorem save_settings_then_settings_init (st : State)
    (hlo : INT_MIN ≤ st.settings.weather_unit) (hhi : st.settings.weather_unit ≤ INT_MAX) :
    (settings_init (boot (save_settings st).persist)).settings = st.settings :=
  settings_init_of_lookup _ _ hlo hhi (persist_lookup_save_settings st)

/-- C6 at a record that differs from the defaults in every field, with a negative unit. -/
theorem save_settings_then_settings_init_witness :
    (INT_MIN ≤ (-7 : Int) ∧ (-7 : Int) ≤ INT_MAX) ∧
    (settings_init (boot (save_settings
        { boot [(0, [1, 2, 3])] with
          settings :=
            { vibrate_on_disconnect := false, hourly_vibration := true, health_enabled := false,
              weather_enabled := false, weather_unit := -7 } }).persist)).settings =
      { vibrate_on_disconnect := false, hourly_vibration := true, health_enabled := false,
        weather_enabled := false, weather_unit := -7 } :=
  ⟨by decide,
    save_settings_then_settings_init
      { boot [(0, [1, 2, 3])] with
        settings :=
          { vibrate_on_disconnect := false, hourly_vibration := true, health_enabled := false,
            weather_enabled := false, weather_unit := -7 } }
      (by decide) (by decide)⟩

/-- C5 (amended): settings_init makes no size check.  With nothing stored under the settings
key the settings are exactly the defaults; a stored blob of b bytes replaces the first
min(b, 8) bytes of the record, so a field keeps its default when the blob ends before it:
weather_unit for b <= 4, weather_enabled for b <= 3, health_enabled for b <= 2,
hourly_vibration for b <= 1 and vibrate_on_disconnect for b = 0. -/
theorem settings_init_defaults (st : State) :
    (persist_lookup st.persist SETTINGS_KEY = none →
      (settings_init st).settings = default_settings) ∧
    (∀ blob, persist_lookup st.persist SETTINGS_KEY = some blob →
      (settings_init st).settings =
          bytes_settings (blob.take 8 ++ (settings_bytes default_settings).drop blob.length) ∧
        (blob.length ≤ 4 → (settings_init st).settings.weather_unit = 0) ∧
        (blob.length ≤ 3 → (settings_init st).settings.weather_enabled = true) ∧
        (blob.length ≤ 2 → (settings_init st).settings.health_enabled = true) ∧
        (blob.length ≤ 1 → (settings_init st).settings.hourly_vibration = false) ∧
        (blob.length = 0 → (settings_init st).settings = default_settings)) := by
  constructor
  · intro h
    simp only [settings_init, persist_read_data, h]
    decide
  · intro blob h
    simp only [settings_init, persist_read_data, h, sizeof_settings]
    rcases blob with _ | ⟨a, _ | ⟨b, _ | ⟨c, _ | ⟨d, _ | ⟨e, _ | ⟨f, _ | ⟨g, _ | ⟨i, r⟩⟩⟩⟩⟩⟩⟩⟩ <;>
      simp [bytes_settings, settings_bytes, default_settings, int_bytes, bool_byte, bytes_int,
        wrap_int]


/-- C5 (amended) at an empty store, where all five defaults stand, and at a two-byte blob,
which leaves health_enabled at its default. -/
theorem settings_init_defaults_witness :
    (persist_lookup (boot []).persist SETTINGS_KEY = none ∧
      (settings_init (boot [])).settings = default_settings) ∧
    (persist_lookup (boot [(0, [0, 1])]).persist SETTINGS_KEY = some [0, 1] ∧
      [0, 1].length ≤ 2 ∧
      (settings_init (boot [(0, [0, 1])])).settings.health_enabled = true) :=
  ⟨⟨by decide, (settings_init_defaults (boot [])).1 (by decide)⟩,
   ⟨by decide, by decide,
    ((settings_init_defaults (boot [(0, [0, 1])])).2 [0, 1] (by decide)).2.2.2.1 (by decide)⟩⟩

/-- C5 as stated fails: a one-byte blob 00 and a nine-byte blob, both of the wrong size, are
read over the record and change it (vibrate_on_disconnect is cleared, and with nine bytes
hourly_vibration is set and weather_unit becomes 1). -/
theorem settings_init_wrong_size_blob :
    ([0].length ≠ sizeof_settings ∧
      persist_lookup (boot [(SETTINGS_KEY, [0])]).persist SETTINGS_KEY = some [0] ∧
      (settings_init (boot [(SETTINGS_KEY, [0])])).settings =
        { default_settings with vibrate_on_disconnect := false } ∧
      (settings_init (boot [(SETTINGS_KEY, [0])])).settings ≠ default_settings) ∧
    ([0, 1, 1, 1, 1, 0, 0, 0, 9].length ≠ sizeof_settings ∧
      (settings_init (boot [(SETTINGS_KEY, [0, 1, 1, 1, 1, 0, 0, 0, 9])])).settings =
        { vibrate_on_disconnect := false, hourly_vibration := true, health_enabled := true,
          weather_enabled := true, weather_unit := 1 } ∧
      (settings_init (boot [(SETTINGS_KEY, [0, 1, 1, 1, 1, 0, 0, 0, 9])])).settings ≠
        default_settings) := by
  decide

/-! ## Message decoder -/

theorem inbox_settings_branch (PBL_HEALTH : Bool) (iterator : DictionaryIterator) (st : State)
    (d : Int)
    (hbranch : ¬ (iterator.temperature.isSome = true ∧ iterator.conditions.isSome = true))
    (hd : iterator.disconnectEnabled = some d) :
    inbox_received_callback PBL_HEALTH iterator st = apply_settings PBL_HEALTH iterator d st := by
  unfold inbox_received_callback
  cases ht : iterator.temperature <;> cases hc : iterator.conditions <;>
    simp_all

theorem isDigit_iff (c : Char) : c.isDigit = true ↔ 48 ≤ c.toNat ∧ c.toNat ≤ 57 := by
  simp [Char.isDigit, Char.toNat, UInt32.le_def, BitVec.le_def, UInt32.toNat]

theorem char_eq_ofNat_iff (c : Char) (n : Nat) (hn : (Char.ofNat n).toNat = n) :
    c = Char.ofNat n ↔ c.toNat = n := by
  constructor
  · intro h
    rw [h, hn]
  · intro h
    rw [← h, Char.ofNat_toNat]

theorem isspace_eq_mem (c : Char) : isspace c = decide (c ∈ white_space) := by
  rw [Bool.eq_iff_iff]
  simp only [isspace, white_space, Bool.or_eq_true, Bool.and_eq_true, beq_iff_eq,
    decide_eq_true_eq, List.mem_cons, List.mem_nil_iff, or_false,
    char_eq_ofNat_iff c 32 (by decide), char_eq_ofNat_iff c 9 (by decide),
    char_eq_ofNat_iff c 10 (by decide), char_eq_ofNat_iff c 11 (by decide),
    char_eq_ofNat_iff c 12 (by decide), char_eq_ofNat_iff c 13 (by decide)]
  omega

theorem atoi_digits_eq (l : CString) (a : Nat) :
    atoi_digits (a : Int) l =
      (((l.takeWhile Char.isDigit).foldl (fun a c => 10 * a + (c.toNat - '0'.toNat)) a : Nat) :
        Int) := by
  induction l generalizing a with
  | nil => simp [atoi_digits]
  | cons c cs ih =>
    by_cases hc : c.isDigit = true
    · have hc2 := (isDigit_iff c).1 hc
      have e : (a : Int) * 10 + ((c.toNat - 48 : Nat) : Int) =
          ((10 * a + (c.toNat - 48) : Nat) : Int) := by push_cast; ring
      simp only [atoi_digits, hc2, and_self, if_true, List.takeWhile_cons, hc, List.foldl_cons]
      rw [e, ih]
      rfl
    · have hc2 : ¬ (48 ≤ c.toNat ∧ c.toNat ≤ 57) := fun h => hc ((isDigit_iff c).2 h)
      simp [atoi_digits, hc2, List.takeWhile_cons, hc]

theorem atoi_digits_zero (l : CString) :
    atoi_digits 0 l = ((digits_value (l.takeWhile Char.isDigit) : Nat) : Int) := by
  have h := atoi_digits_eq l 0
  simpa [digits_value] using h

theorem atoi_value_eq (s : CString) : atoi_value s = parsed_integer s := by
  have hw : (fun c => decide (c ∈ white_space)) = isspace := by
    funext c
    rw [isspace_eq_mem]
  unfold atoi_value parsed_integer
  rw [hw]
  split <;> simp [atoi_digits_zero]

theorem atoi_of_not_fits (s : CString)
    (h : ¬ (INT_MIN ≤ parsed_integer s ∧ parsed_integer s ≤ INT_MAX)) :
    atoi s = none := by
  unfold atoi
  rw [atoi_value_eq, if_neg h]


/-- C9 (amended): a payload with the temperature field present and both the conditions field
and the disconnect-enabled field absent is ignored: the callback returns the state it was
given, so settings, stored record and display strings are unchanged and no call is made. -/
theorem inbox_temperature_alone_ignored (PBL_HEALTH : Bool) (iterator : DictionaryIterator)
    (st : State) (t : Int)
    (ht : iterator.temperature = some t) (hc : iterator.conditions = none)
    (hd : iterator.disconnectEnabled = none) :
    inbox_received_callback PBL_HEALTH iterator st = Outcome.returned st ∧
    calls_during st st = [] := by
  simp [inbox_received_callback, ht, hc, hd, calls_during]

/-- C9 (amended) at a payload that carries a temperature and all settings fields but the
disconnect-enabled one. -/
theorem inbox_temperature_alone_ignored_witness :
    inbox_received_callback true
        { temperature := some 5, conditions := none, disconnectEnabled := none,
          hourlyVibrationEnabled := some 1, healthEnabled := some 0, weatherEnabled := some 1,
          temperatureUnit := some "1".toList }
        (settings_init (boot [])) = Outcome.returned (settings_init (boot [])) ∧
    calls_during (settings_init (boot [])) (settings_init (boot [])) = [] :=
  inbox_temperature_alone_ignored true
    { temperature := some 5, conditions := none, disconnectEnabled := none,
      hourlyVibrationEnabled := some 1, healthEnabled := some 0, weatherEnabled := some 1,
      temperatureUnit := some "1".toList }
    (settings_init (boot [])) 5 rfl rfl rfl

/-- C9 as stated fails: a payload with a temperature, no conditions and the five settings
fields is not ignored.  From the defaults it sets hourly_vibration and weather_unit, clears
vibrate_on_disconnect and health_enabled, stores the new record and sends a weather request. -/
theorem inbox_temperature_with_settings_applied :
    ∃ st1,
      inbox_received_callback true
          { temperature := some 5, conditions := none, disconnectEnabled := some 0,
            hourlyVibrationEnabled := some 1, healthEnabled := some 0, weatherEnabled := some 1,
            temperatureUnit := some "1".toList }
          (settings_init (boot [])) = Outcome.returned st1 ∧
      (settings_init (boot [])).settings = default_settings ∧
      st1.settings =
        { vibrate_on_disconnect := false, hourly_vibration := true, health_enabled := false,
          weather_enabled := true, weather_unit := 1 } ∧
      st1.settings ≠ (settings_init (boot [])).settings ∧
      persist_lookup (settings_init (boot [])).persist SETTINGS_KEY = none ∧
      persist_lookup st1.persist SETTINGS_KEY = some [0, 1, 0, 1, 1, 0, 0, 0] ∧
      calls_during (settings_init (boot [])) st1 = [weather_request, Effect.layer_mark_dirty] :=
  ⟨_, rfl, by decide, by decide, by decide, by decide, by decide, by decide⟩

/-- A payload that enters the settings branch without one of the hourly-vibration,
health-enabled, weather-enabled or unit fields never returns: a NULL tuple is dereferenced,
after vibrate_on_disconnect has already been assigned. -/
theorem inbox_settings_missing_field (PBL_HEALTH : Bool) (iterator : DictionaryIterator)
    (st : State) (d : Int)
    (hbranch : ¬ (iterator.temperature.isSome = true ∧ iterator.conditions.isSome = true))
    (hd : iterator.disconnectEnabled = some d)
    (hmiss : iterator.hourlyVibrationEnabled = none ∨ iterator.healthEnabled = none ∨
      iterator.weatherEnabled = none ∨ iterator.temperatureUnit = none) :
    ∃ st1, inbox_received_callback PBL_HEALTH iterator st = Outcome.null_dereference st1 ∧
      st1.settings.vibrate_on_disconnect = decide (d = 1) := by
  rw [inbox_settings_branch PBL_HEALTH iterator st d hbranch hd]
  unfold apply_settings
  cases h1 : iterator.hourlyVibrationEnabled <;> cases h2 : iterator.healthEnabled <;>
    cases h3 : iterator.weatherEnabled <;> cases h4 : iterator.temperatureUnit <;>
    simp_all

/-- C7 on the code: from the defaults (vibrate_on_disconnect true), a payload carrying only
disconnect-enabled = 0 does not leave the settings as they were.  The callback clears
vibrate_on_disconnect and then dereferences the NULL hourly-vibration tuple. -/
theorem inbox_settings_only_disconnect :
    inbox_received_callback true
        { temperature := none, conditions := none, disconnectEnabled := some 0,
          hourlyVibrationEnabled := none, healthEnabled := none, weatherEnabled := none,
          temperatureUnit := none }
        (settings_init (boot [])) =
      Outcome.null_dereference
        { settings_init (boot []) with
          settings := { default_settings with vibrate_on_disconnect := false } } ∧
    (settings_init (boot [])).settings.vibrate_on_disconnect = true := by
  decide

end Watchface
